import Mathlib

/-!
Verification of the Barkeep retrieval-and-normalization pipeline.

This file gives a shallow embedding of the two source files
(`metrc_api.py` and `main.py`) and proves the specification claims
against it.  Python strings are modelled as Lean strings (operated on
through their character lists), Python numbers as `ℤ` (int) and `ℚ`
(float, treated as exact decimals: binary rounding artefacts, exponent
renderings, `inf`/`nan` and digit underscores are outside the model),
JSON values as an inductive `JVal`, and Python exceptions as an
explicit error channel (`Outcome`).
-/

namespace Barkeep

/-! ## Python string primitives -/

/-- ASCII digit test. -/
def isAsciiDigit (c : Char) : Bool := '0' ≤ c && c ≤ '9'

/-- Python `str.isdigit` on ASCII text: nonempty and all digits. -/
def pyIsDigit (l : List Char) : Bool := !l.isEmpty && l.all isAsciiDigit

/-- Numeric value of an ASCII digit. -/
def digitVal (c : Char) : Nat := c.toNat - 48

/-- Value of a digit string. -/
def digitsToNat (l : List Char) : Nat := l.foldl (fun a c => a * 10 + digitVal c) 0

/-- Characters removed by Python `str.strip()` (ASCII whitespace). -/
def isPyWs (c : Char) : Bool :=
  c = ' ' || c = '\t' || c = '\n' || c = '\r' || c = '\x0b' || c = '\x0c'

/-- Python `str.strip()` on a character list. -/
def pyStripL (l : List Char) : List Char :=
  ((l.dropWhile isPyWs).reverse.dropWhile isPyWs).reverse

/-- Python `str.strip()`. -/
def pyStrip (s : String) : String := ⟨pyStripL s.data⟩

/-- Python `str.lower` restricted to the ASCII case mapping. -/
def lowerChar (c : Char) : Char :=
  if 'A' ≤ c && c ≤ 'Z' then Char.ofNat (c.toNat + 32) else c

/-- Python `str.lower`. -/
def pyLower (s : String) : String := ⟨s.data.map lowerChar⟩

/-- An exact decimal number `m / 10 ^ e`: the value of a parsed Python
float in this model.  (Two representations can denote one value;
value-level comparisons go through the `Dec.le`/`Dec.veq` predicates,
and `Dec.toRat` gives the denoted rational.) -/
structure Dec where
  m : ℤ
  e : ℕ
deriving DecidableEq, Repr

/-- Ten to the power `e`, as an integer. -/
def pow10 (e : ℕ) : ℤ := ((10 ^ e : ℕ) : ℤ)

/-- Value-level order on decimals (cross multiplication). -/
def Dec.le (a b : Dec) : Bool := a.m * pow10 b.e ≤ b.m * pow10 a.e

/-- Value-level equality on decimals. -/
def Dec.veq (a b : Dec) : Bool := a.m * pow10 b.e = b.m * pow10 a.e

/-- The denoted rational value (for specification-level statements). -/
def Dec.toRat (a : Dec) : ℚ := (a.m : ℚ) / ((pow10 a.e : ℤ) : ℚ)

/-- Negation of a decimal. -/
def Dec.neg (a : Dec) : Dec := ⟨-a.m, a.e⟩

/-- Core of Python `float(...)` on an unsigned numeral: digits with an
optional single dot.  (Exponents, `inf`/`nan` and digit underscores are
outside the model.) -/
def pyFloatCore (l : List Char) : Option Dec :=
  let ip := l.takeWhile isAsciiDigit
  let rest := l.dropWhile isAsciiDigit
  match rest with
  | [] => if ip.isEmpty then none else some ⟨(digitsToNat ip : ℤ), 0⟩
  | '.' :: frac =>
      if frac.all isAsciiDigit && !(ip.isEmpty && frac.isEmpty) then
        some ⟨(digitsToNat ip : ℤ) * pow10 frac.length + (digitsToNat frac : ℤ), frac.length⟩
      else none
  | _ => none

/-- Model of Python `float(str)`: optional surrounding whitespace,
optional sign, decimal numeral; `none` models `ValueError`. -/
def pyFloat (s : String) : Option Dec :=
  match pyStripL s.data with
  | '+' :: rest => pyFloatCore rest
  | '-' :: rest => (pyFloatCore rest).map Dec.neg
  | l => pyFloatCore l

/-- Python `str.replace` (all non-overlapping occurrences, left to
right) on character lists; the first argument is a fuel bound (callers
pass the length of the subject plus one; the needle is never empty in
this code base). -/
def pyReplaceL : Nat → List Char → List Char → List Char → List Char
  | 0, s, _, _ => s
  | _ + 1, [], _, _ => []
  | n + 1, c :: cs, old, new =>
      if old.isPrefixOf (c :: cs) then new ++ pyReplaceL n ((c :: cs).drop old.length) old new
      else c :: pyReplaceL n cs old new

/-- Python `str.replace`. -/
def pyReplace (s old new : String) : String :=
  ⟨pyReplaceL (s.data.length + 1) s.data old.data new.data⟩

/-- Python substring containment `needle in hay`. -/
def substrB (needle hay : String) : Bool := decide (needle.data <:+: hay.data)

/-! ## Result Classifier reference lists (main.py lines 18-49) -/

/-- The eight individual cannabinoid names (main.py `INDIVIDUAL_CANNABINOIDS`). -/
def INDIVIDUAL_CANNABINOIDS : List String :=
  ["Δ9-THC", "THCA", "CBD", "CBDA", "CBN", "THCV", "CBDV", "Δ8-THC"]

/-- All cannabinoid test types, including aggregated ones
(main.py `CANNABINOID_TEST_TYPES`). -/
def CANNABINOID_TEST_TYPES : List String :=
  ["Δ9-THC", "THCA", "CBD", "CBDA", "TOTAL THC", "CBN", "THCV", "CBDV", "Δ8-THC", "TOTAL CBD",
   "Total CBD (mg/serving) Mandatory Cannabinoid % and Totals",
   "Total CBD (mg/unit) Raw Plant Material & Prerolls",
   "CBD (%) Mandatory Cannabinoid % and Totals",
   "CBDA (%) Mandatory Cannabinoid % and Totals",
   "Total THC (mg/serving) Mandatory Cannabinoid % and Totals",
   "Total THC (mg/unit) Raw Plant Material & PreRolls",
   "Delta-9 THC (mg/serving) Raw Plant Material & PreRolls",
   "Total Delta-9 THC (mg/serving) Mandatory Cannabinoid % and Totals",
   "Total Delta-9 THC (mg/unit) Raw Plant Material & PreRolls",
   "Delta-9 THC (%) Mandatory Cannabinoid % and Totals",
   "Total Delta-9 THC (%) Mandatory Cannabinoid % and Totals"]

/-- Terpene test type names (main.py `TERPENE_TEST_TYPES`). -/
def TERPENE_TEST_TYPES : List String :=
  ["Myrcene", "Beta-Caryophyllene", "Alpha-Pinene", "Beta-Pinene", "Limonene", "Linalool",
   "Terpinolene", "Humulene", "Ocimene", "Geraniol", "Eucalyptol", "Camphene", "Borneol",
   "Delta-3-Carene", "Terpineol", "Farnesene", "Guaiol", "Isopulegol", "Nerolidol"]

/-! ## Test records -/

/-- A raw test-result level: Python string, int or float (floats as
exact decimals). -/
inductive RLevel
  | rstr (s : String)
  | rint (i : ℤ)
  | rfloat (q : Dec)
deriving DecidableEq, Repr

/-- A raw test record (the dict fields main.py reads; a missing `Option`
field models an absent dict key). -/
structure TestRecord where
  TestTypeName : Option String := none
  TestPassed : Bool := false
  TestResultLevel : Option RLevel := none
  TestPerformedDate : Option String := none
deriving DecidableEq, Repr

/-- Field access `r.get("TestTypeName", "")`. -/
def typeNameOf (r : TestRecord) : String := r.TestTypeName.getD ""

/-- Field access `r.get("TestResultLevel", "N/A")`. -/
def levelOf (r : TestRecord) : RLevel := r.TestResultLevel.getD (.rstr "N/A")

/-! ## Unit extraction and display-name simplification (main.py) -/

/-- Suffix of a character list after the first occurrence of `c`. -/
def afterFirst (c : Char) : List Char → Option (List Char)
  | [] => none
  | x :: xs => if x = c then some xs else afterFirst c xs

/-- Characters of a list strictly before the first occurrence of `c`
(`none` when `c` does not occur). -/
def upTo (c : Char) : List Char → Option (List Char)
  | [] => none
  | x :: xs => if x = c then some [] else (upTo c xs).map (x :: ·)

/-- main.py `extract_units`: the first parenthesized group of the type
name, i.e. `re.search(r"\((.*?)\)", t)`, empty string when there is no
match.  (The leftmost match of that regex starts at the first `'('` of
the string and captures up to the next `')'`.) -/
def extract_units (t : String) : String :=
  match afterFirst '(' t.data with
  | none => ""
  | some rest =>
      match upTo ')' rest with
      | none => ""
      | some grp => ⟨grp⟩

/-- main.py `simplify_cannabinoid_name`: remove the fixed boilerplate
phrases and strip surrounding whitespace.  (This is the whole function:
it performs no removal of a leading "Total " token and no canonical
compound pattern match.) -/
def simplify_cannabinoid_name (t : String) : String :=
  pyStrip (pyReplace (pyReplace (pyReplace (pyReplace
    t "Raw Plant Material & PreRolls" "")
      "Mandatory Cannabinoid % and Totals" "")
      "Vapes & Concentrates" "")
      "Infused Plant Material & PreRolls" "")

/-- The cannabinoids-table row filter of main.py
`populate_cannabinoids_table`: the type name contains some member of
`CANNABINOID_TEST_TYPES` as a substring. -/
def isPotencyRow (r : TestRecord) : Bool :=
  CANNABINOID_TEST_TYPES.any (fun ct => substrB ct (typeNameOf r))

/-! ## Date parsing (model of `datetime.strptime(s, "%Y-%m-%d")`) -/

/-- Split a character list on `'-'` (Python `str.split("-")`). -/
def splitDash : List Char → List (List Char)
  | [] => [[]]
  | '-' :: rest => [] :: splitDash rest
  | c :: rest =>
      match splitDash rest with
      | [] => [[c]]
      | p :: ps => (c :: p) :: ps

/-- CPython `_strptime` month pattern `1[0-2]|0[1-9]|[1-9]`. -/
def validMonthStr (l : List Char) : Option Nat :=
  match l with
  | [c] => if '1' ≤ c && c ≤ '9' then some (digitVal c) else none
  | [c1, c2] =>
      if c1 = '1' && ('0' ≤ c2 && c2 ≤ '2') then some (10 + digitVal c2)
      else if c1 = '0' && ('1' ≤ c2 && c2 ≤ '9') then some (digitVal c2)
      else none
  | _ => none

/-- CPython `_strptime` day pattern `3[01]|[12]\d|0[1-9]|[1-9]`. -/
def validDayStr (l : List Char) : Option Nat :=
  match l with
  | [c] => if '1' ≤ c && c ≤ '9' then some (digitVal c) else none
  | [c1, c2] =>
      if c1 = '3' && (c2 = '0' || c2 = '1') then some (30 + digitVal c2)
      else if (c1 = '1' || c1 = '2') && ('0' ≤ c2 && c2 ≤ '9') then
        some (digitVal c1 * 10 + digitVal c2)
      else if c1 = '0' && ('1' ≤ c2 && c2 ≤ '9') then some (digitVal c2)
      else none
  | _ => none

/-- Proleptic-Gregorian leap year (as `datetime` uses). -/
def isLeapYear (y : Nat) : Bool := (y % 4 = 0 && y % 100 ≠ 0) || y % 400 = 0

/-- Days in a month. -/
def daysInMonth (y m : Nat) : Nat :=
  if m = 2 then (if isLeapYear y then 29 else 28)
  else if m = 4 || m = 6 || m = 9 || m = 11 then 30
  else 31

/-- Whether `datetime.strptime(s, "%Y-%m-%d")` succeeds: a full match of
four year digits, a 1-2 digit month, a 1-2 digit day, and a valid
calendar date with year at least `datetime.MINYEAR = 1`. -/
def isValidDate (s : String) : Bool :=
  match splitDash s.data with
  | [y, m, d] =>
      match validMonthStr m, validDayStr d with
      | some mv, some dv =>
          y.length = 4 && y.all isAsciiDigit && digitsToNat y ≥ 1 &&
            dv ≤ daysInMonth (digitsToNat y) mv
      | _, _ => false
  | _ => false

/-! ## Derived-Attribute Calculator: earliest test date (main.py) -/

/-- main.py `extract_test_date`: walk the records in order; at the FIRST
record whose `TestPerformedDate` field is present and not the literal
`"N/A"`, return that date if it parses and the sentinel `"N/A"`
otherwise; later records are not consulted. -/
def extract_test_date : List TestRecord → String
  | [] => "N/A"
  | r :: rs =>
      match r.TestPerformedDate with
      | some d => if d ≠ "N/A" then (if isValidDate d then d else "N/A") else extract_test_date rs
      | none => extract_test_date rs

/-- Modelled from the spec: the date of the first record (in input
order) whose date field parses as a calendar date, as the claim about
the earliest valid test date states it.  (Used only to compare against
the behaviour of `extract_test_date`.) -/
def firstParseableDate (l : List TestRecord) : Option String :=
  l.findSome? (fun r => r.TestPerformedDate.bind
    (fun d => if isValidDate d then some d else none))

/-! ## JSON values -/

/-- A parsed JSON value (`null` also models Python `None`).  Numbers
are modelled as exact rationals. -/
inductive JVal
  | obj (fields : List (String × JVal))
  | arr (elems : List JVal)
  | str (s : String)
  | num (q : ℚ)
  | bool (b : Bool)
  | null

/-- Python `dict.get` (first binding wins). -/
def jget (fs : List (String × JVal)) (k : String) : Option JVal :=
  (fs.find? (fun p => p.1 = k)).map (fun p => p.2)

/-- Python truthiness of a JSON value. -/
def pyTruthy : JVal → Bool
  | .obj fs => !fs.isEmpty
  | .arr l => !l.isEmpty
  | .str s => s ≠ ""
  | .num q => q ≠ 0
  | .bool b => b
  | .null => false

/-- Numeric view used by Python comparisons such as
`page_number <= total_pages` (`bool` is an `int` subclass in Python;
anything else raises `TypeError`, modelled by `none`). -/
def jnumOf : JVal → Option ℚ
  | .num q => some q
  | .bool b => some (if b then 1 else 0)
  | _ => none

/-- Python iteration as used by `list.extend`: lists yield their
elements, strings their characters, dicts their keys; numbers, booleans
and `None` raise `TypeError` (`none`). -/
def pyIterate : JVal → Option (List JVal)
  | .arr l => some l
  | .str s => some (s.data.map (fun c => .str ⟨[c]⟩))
  | .obj fs => some (fs.map (fun p => .str p.1))
  | _ => none

/-! ## Transport Client (metrc_api.py `make_api_request`) -/

/-- An HTTP response: status code and body (`none` body = the text does
not parse as JSON, so `response.json()` raises `ValueError`). -/
structure Resp where
  status : Nat
  body : Option JVal

/-- Outcome of one network attempt inside `make_api_request`:
a connection/timeout failure or a served response. -/
inductive Attempt
  | netFail
  | resp (r : Resp)

/-- Result of `make_api_request` as seen by its callers: either a
response whose status passed `raise_for_status()` (i.e. `< 400`) or a
`tenacity.RetryError` raised after the attempt budget is exhausted.
Tenacity's default retry predicate retries on every exception, and
`raise_for_status()` turns every 4xx/5xx status into an `HTTPError`
(a `requests.RequestException`), so both network failures and HTTP
error statuses are retried; after `stop_after_attempt(5)` the decorator
raises `RetryError` (default `reraise=False`), which is not a
`RequestException`. -/
inductive MAResult
  | ok (r : Resp)
  | retryError

/-- The retry loop of `make_api_request`: `att n` is the outcome of the
n-th network attempt (0-based); the pair returned is the result and the
number of attempts performed. -/
def mkReqGo (att : Nat → Attempt) : Nat → Nat → MAResult × Nat
  | i, 0 => (.retryError, i)
  | i, rem + 1 =>
      match att i with
      | .netFail => mkReqGo att (i + 1) rem
      | .resp r => if r.status ≥ 400 then mkReqGo att (i + 1) rem else (.ok r, i + 1)

/-- metrc_api.py `make_api_request` with its `stop_after_attempt(5)`
budget. -/
def make_api_request (att : Nat → Attempt) : MAResult × Nat := mkReqGo att 0 5

/-! ## Python exceptions and call outcomes -/

/-- Exceptions that can escape the modelled functions uncaught. -/
inductive PyExc
  | retryError
  | nameError
  | typeError
  | attributeError
  | valueError
deriving DecidableEq, Repr

/-- Outcome of calling a modelled Python function: a returned value, an
uncaught exception, or (for the fuel-modelled pagination loop only)
non-termination within the supplied fuel. -/
inductive Outcome (α : Type)
  | ret (a : α)
  | exc (e : PyExc)
  | diverge

/-- Sequencing of outcomes. -/
def Outcome.bind {α β : Type} : Outcome α → (α → Outcome β) → Outcome β
  | .ret a, f => f a
  | .exc e, _ => .exc e
  | .diverge, _ => .diverge

/-! ## Package Lookup (metrc_api.py `get_package_id`) -/

/-- The dict returned by `get_package_id`: a success record or a
failure record with its `error` message. -/
inductive PkgResult
  | ok (package_id product_name source_package_label number_of_doses ingredients_list : JVal)
  | err (error : String)

/-- metrc_api.py `get_source_package_label`, abstracted over the result
of its `make_api_request` call.  `except requests.RequestException`
does not catch `tenacity.RetryError`, so an exhausted retry budget
escapes as an exception instead of degrading to `"N/A"`; a non-dict
JSON body makes `data.get` raise `AttributeError`. -/
def getSourcePackageLabelFrom (fetch : MAResult) : Outcome JVal :=
  match fetch with
  | .retryError => .exc .retryError
  | .ok r =>
      match r.body with
      | none => .ret (.str "N/A")
      | some (.obj fs) => .ret ((jget fs "Label").getD (.str "N/A"))
      | some _ => .exc .attributeError

/-- metrc_api.py `get_package_id`, abstracted over the results of its
(at most) two `make_api_request` calls.  As in the source:
`RetryError` escapes uncaught (the `"Network error"` branch is dead
code), an unparseable body yields `"Invalid JSON response"`, a non-dict
body yields `"Unexpected JSON structure"`, a falsy `Id` yields
`"packageId not found"`, and the source-label fallback applies. -/
def getPackageIdFrom (fetch1 fetch2 : MAResult) (full_label : String) : Outcome PkgResult :=
  match fetch1 with
  | .retryError => .exc .retryError
  | .ok r =>
      match r.body with
      | none => .ret (.err "Invalid JSON response")
      | some (.obj fs) =>
          let package_id := (jget fs "Id").getD .null
          let item := (jget fs "Item").getD (.obj [])
          let nameStep : Outcome JVal :=
            match item with
            | .obj ifs => .ret ((jget ifs "Name").getD (.str ""))
            | _ => .exc .attributeError
          nameStep.bind (fun nameJ =>
            let product_name := if pyTruthy nameJ then nameJ else .str full_label
            let source_package_label := (jget fs "SourcePackageLabel").getD (.str "")
            let source_package_id := (jget fs "SourcePackageId").getD .null
            let number_of_doses := (jget fs "NumberOfDoses").getD (.str "N/A")
            let ingredients_list := (jget fs "IngredientsList").getD (.str "N/A")
            let splStep : Outcome JVal :=
              if !pyTruthy source_package_label && pyTruthy source_package_id then
                getSourcePackageLabelFrom fetch2
              else .ret source_package_label
            splStep.bind (fun spl =>
              if pyTruthy package_id then
                .ret (.ok package_id product_name
                  (if pyTruthy spl then spl else .str "N/A") number_of_doses ingredients_list)
              else .ret (.err "packageId not found")))
      | some _ => .ret (.err "Unexpected JSON structure")

/-- metrc_api.py `get_package_id` wired to the Transport Client: each
of the two logical API calls is given its own attempt trace. -/
def get_package_id (att1 att2 : Nat → Attempt) (full_label : String) : Outcome PkgResult :=
  getPackageIdFrom (make_api_request att1).1 (make_api_request att2).1 full_label

/-- main.py `handle_error`: the dialog category shown for an error
message coming back from the worker. -/
def handle_error (msg : String) : String :=
  if msg = "Unauthorized" then "Authentication Error"
  else if msg = "packageId not found" then "Not Found"
  else "API Error"

/-! ## Paginated Result Fetcher (metrc_api.py `get_test_results`) -/

/-- The dict returned by `get_test_results`. -/
inductive GTR
  | success (data : List JVal)
  | failure (error : String)

/-- The pagination loop of `get_test_results`.  Arguments: per-page
transport result, fuel, `page_number`, the current `total_pages` value
(kept as a raw `JVal` exactly as Python does; the comparison in the
`while` condition raises `TypeError` on non-numbers), the accumulator,
the Python local variable `data` (`none` = not yet bound: referencing
it in the per-page log line raises `NameError`), and the list of page
numbers requested so far. -/
def gtrGo (fetch : Nat → MAResult) :
    Nat → Nat → JVal → List JVal → Option (List JVal) → List Nat →
    Outcome GTR × List Nat
  | 0, pn, totalV, acc, _, calls =>
      match jnumOf totalV with
      | none => (.exc .typeError, calls)
      | some t => if (pn : ℚ) ≤ t then (.diverge, calls) else (.ret (.success acc), calls)
  | fuel + 1, pn, totalV, acc, dataVar, calls =>
      match jnumOf totalV with
      | none => (.exc .typeError, calls)
      | some t =>
          if (pn : ℚ) ≤ t then
            match fetch pn with
            | .retryError => (.exc .retryError, calls ++ [pn])
            | .ok r =>
                match r.body with
                | none => (.ret (.failure "Invalid JSON response"), calls ++ [pn])
                | some (.obj fs) =>
                    match pyIterate ((jget fs "Data").getD (.arr [])) with
                    | none => (.exc .typeError, calls ++ [pn])
                    | some elems =>
                        gtrGo fetch fuel (pn + 1) ((jget fs "TotalPages").getD (.num 1))
                          (acc ++ elems) (some elems) (calls ++ [pn])
                | some (.arr elems) =>
                    match dataVar with
                    | none => (.exc .nameError, calls ++ [pn])
                    | some d =>
                        gtrGo fetch fuel (pn + 1) (.num 1) (acc ++ elems) (some d)
                          (calls ++ [pn])
                | some _ => (.ret (.failure "Unexpected JSON structure"), calls ++ [pn])
          else (.ret (.success acc), calls)

/-- metrc_api.py `get_test_results`, abstracted over the per-page
result of `make_api_request` (`fetch pn` is the transport outcome for
page `pn`); the second component lists the page numbers requested, in
order.  The loop starts with `page_number = 1`, `total_pages = 1`,
empty accumulator and the local `data` unbound. -/
def get_test_results (fetch : Nat → MAResult) (fuel : Nat) : Outcome GTR × List Nat :=
  gtrGo fetch fuel 1 (.num 1) [] none []

/-! ## Rounding and number formatting -/

/-- Banker's rounding of `x * 100` to an integer (the hundredths of
Python `round(x, 2)` on exact values): with `p / q` the value of
`x * 100` (`q > 0`), take the floor `f` and compare twice the remainder
against `q`, rounding ties to even. -/
def roundHalfEven100 (x : Dec) : ℤ :=
  let p := x.m * 100
  let q := pow10 x.e
  let f := Int.fdiv p q
  let r2 := 2 * (p - f * q)
  if r2 < q then f
  else if q < r2 then f + 1
  else if f % 2 = 0 then f else f + 1

/-- Python `round(x, 2)` followed by `str`/f-string formatting of the
resulting float: the rounded value printed in plain decimal with its
minimal fractional part, at least one fractional digit. -/
def fmtRound2 (x : Dec) : String :=
  let n := roundHalfEven100 x
  let sign := if n < 0 then "-" else ""
  let m := n.natAbs
  let ip := m / 100
  let fr := m % 100
  if fr % 10 = 0 then sign ++ toString ip ++ "." ++ toString (fr / 10)
  else if fr < 10 then sign ++ toString ip ++ ".0" ++ toString fr
  else sign ++ toString ip ++ "." ++ toString fr

/-! ## Terpene pipeline (main.py `populate_terpenes_table`) -/

/-- The terpenes-table row filter: the type name contains some member
of `TERPENE_TEST_TYPES` as a substring. -/
def isTerpeneRow (r : TestRecord) : Bool :=
  TERPENE_TEST_TYPES.any (fun tt => substrB tt (typeNameOf r))

/-- The keep test of the `final_results` loop: drop case-insensitive
"n/a" strings, drop concentrations parsing to exactly zero, keep
everything else (including strings that fail the numeric parse). -/
def keepTerpL : RLevel → Bool
  | .rstr s =>
      if pyLower s ≠ "n/a" then
        match pyFloat s with
        | some v => v.m ≠ 0
        | none => true
      else false
  | .rint i => i ≠ 0
  | .rfloat q => q.m ≠ 0

/-- The keep test applied to a record's result level. -/
def keepTerp (r : TestRecord) : Bool := keepTerpL (levelOf r)

/-- A concentration that parses to exactly zero. -/
def concIsZeroB : RLevel → Bool
  | .rstr s =>
      match pyFloat s with
      | some v => v.m = 0
      | none => false
  | .rint i => i = 0
  | .rfloat q => q.m = 0

/-- Python `str.replace('.', '', 1)`: remove only the first dot. -/
def dropFirstDot : List Char → List Char
  | [] => []
  | '.' :: rest => rest
  | c :: rest => c :: dropFirstDot rest

/-- The sort key of `populate_terpenes_table`:
`float(value) if str(value).replace('.', '', 1).isdigit() else 0`.
For int and float levels, `str(value)` passes the digit check exactly
when the value is nonnegative (plain decimal rendering assumed). -/
def terpSortKey (r : TestRecord) : Dec :=
  match r.TestResultLevel.getD (.rint 0) with
  | .rstr s => if pyIsDigit (dropFirstDot s.data) then (pyFloat s).getD ⟨0, 0⟩ else ⟨0, 0⟩
  | .rint i => if 0 ≤ i then ⟨i, 0⟩ else ⟨0, 0⟩
  | .rfloat q => if 0 ≤ q.m then q else ⟨0, 0⟩

/-- Stable insert for descending order: the new element is placed
before the first existing element whose key does not exceed its own. -/
def insDesc {α : Type} (k : α → Dec) (x : α) : List α → List α
  | [] => [x]
  | y :: ys => if (k y).le (k x) then x :: y :: ys else y :: insDesc k x ys

/-- Stable descending sort by key — the behaviour of Python
`sorted(..., key=k, reverse=True)` (stable: equal keys retain input
order). -/
def sortDescBy {α : Type} (k : α → Dec) : List α → List α
  | [] => []
  | x :: xs => insDesc k x (sortDescBy k xs)

/-- main.py `populate_terpenes_table` up to `self.terpenes_data`:
substring filter, zero/"n/a" drop loop, stable descending sort. -/
def populateTerpenesData (results : List TestRecord) : List TestRecord :=
  sortDescBy terpSortKey ((results.filter isTerpeneRow).filter keepTerp)

/-- The concentration cell of a terpene row: numeric values are rounded
to two decimal places and suffixed with `%`; other strings pass through
unchanged. -/
def concDisplay : RLevel → String
  | .rstr s =>
      if pyLower s ≠ "n/a" then
        match pyFloat s with
        | some q => fmtRound2 q ++ "%"
        | none => s
      else s
  | .rint i => toString i ++ "%"
  | .rfloat q => fmtRound2 q ++ "%"

/-- The sort key the C8 claim prescribes: the parsed numeric
concentration itself, entries failing the numeric parse counting as
zero.  (Used only to compare against the code's key.) -/
def claimSortKey (r : TestRecord) : Dec :=
  match levelOf r with
  | .rstr s => (pyFloat s).getD ⟨0, 0⟩
  | .rint i => ⟨i, 0⟩
  | .rfloat q => q

/-! ## Cannabinoid value extraction (main.py `extract_cannabinoid_values`) -/

/-- Python dict assignment `f[tt] = val` on a function-modelled dict. -/
def dictSet (f : String → String) (tt val : String) : String → String :=
  fun k => if k = tt then val else f k

/-- The level-directed part of one step of the accumulation loop of
`extract_cannabinoid_values`: positive numeric levels are formatted
with the extracted unit appended, non-positive ones reset to "0.0",
unparseable strings are stored verbatim, "n/a" strings leave the entry
untouched. -/
def updateCVLevel (tt units : String) (f : String → String) : RLevel → String → String
  | .rstr s =>
      if pyLower s ≠ "n/a" then
        match pyFloat s with
        | some v =>
            if 0 < v.m then dictSet f tt (fmtRound2 v ++ units)
            else dictSet f tt "0.0"
        | none => dictSet f tt s
      else f
  | .rint i =>
      if 0 < i then dictSet f tt (toString i ++ units) else dictSet f tt "0.0"
  | .rfloat q =>
      if 0 < q.m then dictSet f tt (fmtRound2 q ++ units) else dictSet f tt "0.0"

/-- One full step of the accumulation loop: the gate on exact
membership of the type name in `INDIVIDUAL_CANNABINOIDS`, then the
level-directed update. -/
def updateCV (f : String → String) (r : TestRecord) : String → String :=
  if typeNameOf r ∈ INDIVIDUAL_CANNABINOIDS then
    updateCVLevel (typeNameOf r) (extract_units (typeNameOf r)) f (levelOf r)
  else f

/-- main.py `extract_cannabinoid_values` as a mapping from compound
name to formatted value, initialised to "0.0" for every key. -/
def extract_cannabinoid_values (results : List TestRecord) : String → String :=
  results.foldl updateCV (fun _ => "0.0")

/-- The `Cannabinoids` mapping assembled by `export_results_to_json`:
one entry per recognized individual compound, in order, read from the
extracted values (default "0.0"). -/
def exportCannabinoids (results : List TestRecord) : List (String × String) :=
  INDIVIDUAL_CANNABINOIDS.map (fun c => (c, extract_cannabinoid_values results c))

/-- A result level that is numerically non-positive: an int or float
at most zero, or a string parsing to a value at most zero. -/
def nonPosNumeric : RLevel → Bool
  | .rstr s =>
      match pyFloat s with
      | some v => v.m ≤ 0
      | none => false
  | .rint i => i ≤ 0
  | .rfloat q => q.m ≤ 0

/-! ## Claim C1 -/

/-- Claim C1: the code violates the claim.  An HTTP error status is NOT
returned immediately: the tenacity decorator on `make_api_request`
retries on every exception and `raise_for_status()` raises for 4xx/5xx,
so a persistent HTTP 401 consumes all five attempts (four retries) and
ends in `RetryError`; retries do also apply to transient network
failures as the claim says (three connection failures followed by a
success return the response on the fourth attempt). -/
theorem c1_http_error_status_is_retried :
    make_api_request (fun _ => .resp ⟨401, none⟩) = (.retryError, 5) ∧
    (make_api_request (fun _ => .resp ⟨401, none⟩)).2 ≠ 1 ∧
    make_api_request (fun i => if i < 3 then .netFail else .resp ⟨200, some (.arr [])⟩) =
      (.ok ⟨200, some (.arr [])⟩, 4) := by
  refine ⟨rfl, by decide, rfl⟩

/-! ## Claim C3 -/

/-- Claim C3: the code violates the claim.  When the FIRST page's JSON
body is a bare array, the per-page log line `len(data)` reads the local
variable `data`, which is only assigned in the dict branch, so the call
raises `NameError` instead of returning a successful result with the
accumulated records; the claimed behaviour does occur when a dict page
precedes the bare-array page (third conjunct). -/
theorem c3_bare_array_first_page_raises :
    get_test_results (fun _ => .ok ⟨200, some (.arr [.num 1])⟩) 10 = (.exc .nameError, [1]) ∧
    (get_test_results (fun _ => .ok ⟨200, some (.arr [.num 1])⟩) 10).1 ≠
      .ret (.success [.num 1]) ∧
    get_test_results
        (fun p => if p = 1 then .ok ⟨200, some (.obj [("Data", .arr [.num 7]), ("TotalPages", .num 2)])⟩
                  else .ok ⟨200, some (.arr [.num 8])⟩) 10 =
      (.ret (.success [.num 7, .num 8]), [1, 2]) := by
  refine ⟨rfl, ?_, rfl⟩
  intro h
  exact Outcome.noConfusion
    (show Outcome.exc PyExc.nameError = Outcome.ret (GTR.success [JVal.num 1]) from h)

/-! ## Claim C4 -/

/-- Sequencing a returned error through `Outcome.bind` means the first
stage returned normally. -/
theorem Outcome.bind_eq_ret {α β : Type} (x : Outcome α) (g : α → Outcome β) (b : β)
    (h : x.bind g = .ret b) : ∃ a, x = .ret a ∧ g a = .ret b := by
  cases x with
  | ret a => exact ⟨a, rfl, h⟩
  | exc e => simp [Outcome.bind] at h
  | diverge => simp [Outcome.bind] at h

/-- Every error message `get_package_id` can return normally. -/
theorem getPackageIdFrom_err_msgs (f1 f2 : MAResult) (fl m : String)
    (h : getPackageIdFrom f1 f2 fl = .ret (.err m)) :
    m = "Invalid JSON response" ∨ m = "packageId not found" ∨
      m = "Unexpected JSON structure" := by
  cases f1 with
  | retryError => simp [getPackageIdFrom] at h
  | ok r =>
      cases hb : r.body with
      | none =>
          simp [getPackageIdFrom, hb] at h
          exact Or.inl h.symm
      | some j =>
          cases j with
          | obj fs =>
              simp only [getPackageIdFrom, hb] at h
              obtain ⟨nameJ, -, h⟩ := Outcome.bind_eq_ret _ _ _ h
              obtain ⟨spl, -, h⟩ := Outcome.bind_eq_ret _ _ _ h
              by_cases hid : pyTruthy ((jget fs "Id").getD .null) = true
              · simp [hid] at h
              · simp [hid] at h
                exact Or.inr (Or.inl h.symm)
          | arr l =>
              simp [getPackageIdFrom, hb] at h
              exact Or.inr (Or.inr h.symm)
          | str s =>
              simp [getPackageIdFrom, hb] at h
              exact Or.inr (Or.inr h.symm)
          | num q =>
              simp [getPackageIdFrom, hb] at h
              exact Or.inr (Or.inr h.symm)
          | bool b =>
              simp [getPackageIdFrom, hb] at h
              exact Or.inr (Or.inr h.symm)
          | null =>
              simp [getPackageIdFrom, hb] at h
              exact Or.inr (Or.inr h.symm)

/-- Claim C4: the code violates the claim.  No execution of
`get_package_id` ever returns an `"Unauthorized"` or `"BadRequest"`
error (so `handle_error`'s authentication branch is unreachable), and a
persistent HTTP 401, a persistent connection failure, and a persistent
HTTP 400 all end in the identical uncaught `RetryError` outcome
(`except requests.RequestException` does not catch it): the error
taxonomy is not preserved end-to-end. -/
theorem c4_error_kinds_not_distinguished :
    (∀ (att1 att2 : Nat → Attempt) (fl m : String),
        get_package_id att1 att2 fl = .ret (.err m) →
        m ≠ "Unauthorized" ∧ m ≠ "BadRequest" ∧ handle_error m ≠ "Authentication Error") ∧
    (∀ (att2 : Nat → Attempt) (fl : String),
        get_package_id (fun _ => .resp ⟨401, some (.str "unauthorized body")⟩) att2 fl =
          .exc .retryError ∧
        get_package_id (fun _ => .netFail) att2 fl = .exc .retryError ∧
        get_package_id (fun _ => .resp ⟨400, some (.str "bad request body")⟩) att2 fl =
          .exc .retryError) := by
  constructor
  · intro att1 att2 fl m h
    rcases getPackageIdFrom_err_msgs _ _ _ _ h with h1 | h1 | h1 <;> subst h1 <;>
      exact ⟨by decide, by decide, by decide⟩
  · intro att2 fl
    exact ⟨rfl, rfl, rfl⟩

/-- Claim C4, witness: a concrete run returning an error message, to
which the theorem applies. -/
theorem c4_error_kinds_not_distinguished_witness :
    get_package_id (fun _ => .resp ⟨200, none⟩) (fun _ => .netFail) "L" =
      .ret (.err "Invalid JSON response") ∧
    "Invalid JSON response" ≠ "Unauthorized" :=
  ⟨rfl, (c4_error_kinds_not_distinguished.1 (fun _ => .resp ⟨200, none⟩) (fun _ => .netFail)
      "L" "Invalid JSON response" rfl).1⟩

/-! ## Pagination loop lemmas -/

/-- One successful dict-shaped page advances the pagination loop:
the page's data array is appended, the local `data` becomes bound, the
reported total-page count replaces the old one, and the cursor moves on. -/
theorem gtrGo_step_dict (fetch : Nat → MAResult) (fuel pn : Nat) (t : ℚ) (acc : List JVal)
    (dataVar : Option (List JVal)) (calls : List Nat) (d : List JVal) (tp : JVal)
    (hle : (pn : ℚ) ≤ t)
    (hf : fetch pn = .ok ⟨200, some (.obj [("Data", .arr d), ("TotalPages", tp)])⟩) :
    gtrGo fetch (fuel + 1) pn (.num t) acc dataVar calls =
      gtrGo fetch fuel (pn + 1) tp (acc ++ d) (some d) (calls ++ [pn]) := by
  simp only [gtrGo, jnumOf]
  rw [if_pos hle, hf]
  rfl

/-- The pagination loop exits with the accumulated records once the
cursor exceeds the total-page count. -/
theorem gtrGo_stop (fetch : Nat → MAResult) (fuel pn : Nat) (t : ℚ) (acc : List JVal)
    (dataVar : Option (List JVal)) (calls : List Nat) (h : ¬ (pn : ℚ) ≤ t) :
    gtrGo fetch fuel pn (.num t) acc dataVar calls = (.ret (.success acc), calls) := by
  cases fuel with
  | zero => simp [gtrGo, jnumOf, h]
  | succ n => simp [gtrGo, jnumOf, h]

/-- The three single-page failure modes of the Paginated Result
Fetcher: exhausted transport retries, a body that is not JSON, and a
JSON body that is neither a dict nor a list. -/
inductive PageFail
  | transport
  | badJson
  | badSchema (j : JVal)

/-- The `make_api_request` result a failing page produces. -/
def PageFail.fetchResult : PageFail → MAResult
  | .transport => .retryError
  | .badJson => .ok ⟨200, none⟩
  | .badSchema j => .ok ⟨200, some j⟩

/-- How `get_test_results` reports each failure mode. -/
def PageFail.outcome : PageFail → Outcome GTR
  | .transport => .exc .retryError
  | .badJson => .ret (.failure "Invalid JSON response")
  | .badSchema _ => .ret (.failure "Unexpected JSON structure")

/-- A JSON value that is neither a dict nor a list. -/
def notDictOrList : JVal → Bool
  | .obj _ => false
  | .arr _ => false
  | _ => true

/-- Well-formedness of a failure mode (`badSchema` must carry a
non-dict, non-list value). -/
def PageFail.wf : PageFail → Bool
  | .badSchema j => notDictOrList j
  | _ => true

/-- A failing page ends the loop at once with the mode's outcome. -/
theorem gtrGo_fail_here (fetch : Nat → MAResult) (fuel pn : Nat) (t : ℚ) (acc : List JVal)
    (dataVar : Option (List JVal)) (calls : List Nat) (mode : PageFail)
    (hwf : mode.wf = true) (hle : (pn : ℚ) ≤ t) (hf : fetch pn = mode.fetchResult) :
    gtrGo fetch (fuel + 1) pn (.num t) acc dataVar calls = (mode.outcome, calls ++ [pn]) := by
  cases mode with
  | transport => simp [gtrGo, jnumOf, hle, hf, PageFail.fetchResult, PageFail.outcome]
  | badJson => simp [gtrGo, jnumOf, hle, hf, PageFail.fetchResult, PageFail.outcome]
  | badSchema j =>
      cases j <;>
        simp_all [gtrGo, jnumOf, hle, hf, PageFail.fetchResult, PageFail.outcome,
          PageFail.wf, notDictOrList]

/-- Splitting off the head of a shifted range of page numbers. -/
theorem calls_range_succ (pn n : Nat) :
    (List.range (n + 1)).map (fun i => pn + i) =
      pn :: (List.range n).map (fun i => pn + 1 + i) := by
  rw [List.range_succ_eq_map]
  simp only [List.map_cons, List.map_map, Nat.add_zero]
  have : ((fun i => pn + i) ∘ Nat.succ) = (fun i : Nat => pn + 1 + i) := by
    funext i
    simp [Function.comp]
    omega
  rw [this]

/-- If pages `pn, …, k-1` come back as well-formed dict pages whose
reported totals keep the loop going and page `k` fails with `mode`,
the loop started at cursor `pn` ends with the mode's outcome having
requested exactly pages `pn, …, k`. -/
theorem gtrGo_fail_at (fetch : Nat → MAResult) (k : Nat) (mode : PageFail)
    (hwf : mode.wf = true) (hfail : fetch k = mode.fetchResult) :
    ∀ (fuel pn : Nat) (t : ℚ) (acc : List JVal) (dataVar : Option (List JVal))
      (calls : List Nat),
      pn ≤ k → k - pn < fuel → (pn : ℚ) ≤ t →
      (∀ p, pn ≤ p → p < k →
        ∃ d tp, fetch p = .ok ⟨200, some (.obj [("Data", .arr d), ("TotalPages", .num tp)])⟩ ∧
          ((p : ℚ) + 1 ≤ tp)) →
      gtrGo fetch fuel pn (.num t) acc dataVar calls =
        (mode.outcome, calls ++ (List.range (k + 1 - pn)).map (fun i => pn + i)) := by
  intro fuel
  induction fuel with
  | zero => intro pn t acc dataVar calls h1 h2 h3 h4; omega
  | succ n ih =>
      intro pn t acc dataVar calls h1 h2 h3 h4
      rcases Nat.lt_or_ge pn k with hlt | hge
      · obtain ⟨d, tp, hpage, htp⟩ := h4 pn le_rfl hlt
        rw [gtrGo_step_dict fetch n pn t acc dataVar calls d (.num tp) h3 hpage]
        have hrec := ih (pn + 1) tp (acc ++ d) (some d) (calls ++ [pn])
          (by omega) (by omega) (by push_cast; linarith)
          (fun p hp1 hp2 => h4 p (by omega) hp2)
        rw [hrec]
        have hk : k + 1 - pn = (k - pn) + 1 := by omega
        have hk2 : k + 1 - (pn + 1) = k - pn := by omega
        rw [hk, hk2, calls_range_succ pn (k - pn)]
        simp
      · have hpn : pn = k := by omega
        subst hpn
        rw [gtrGo_fail_here fetch n pn t acc dataVar calls mode hwf h3 hfail]
        have : pn + 1 - pn = 1 := by omega
        rw [this]
        simp [List.range_succ]

/-! ## Claim C6 -/

/-- Claim C6: when pages 1-3 each return an object with a `Data` array
and `TotalPages = 3`, the fetcher performs exactly the three transport
calls `pageNumber = 1, 2, 3`, returns the three data arrays
concatenated in page order, and stops as soon as the cursor (4) exceeds
the reported total-page count (3). -/
theorem c6_three_pages_concatenated (fetch : Nat → MAResult) (d1 d2 d3 : List JVal)
    (h1 : fetch 1 = .ok ⟨200, some (.obj [("Data", .arr d1), ("TotalPages", .num 3)])⟩)
    (h2 : fetch 2 = .ok ⟨200, some (.obj [("Data", .arr d2), ("TotalPages", .num 3)])⟩)
    (h3 : fetch 3 = .ok ⟨200, some (.obj [("Data", .arr d3), ("TotalPages", .num 3)])⟩)
    (fuel : Nat) (hfuel : 4 ≤ fuel) :
    get_test_results fetch fuel = (.ret (.success (d1 ++ d2 ++ d3)), [1, 2, 3]) := by
  obtain ⟨k, rfl⟩ : ∃ k, fuel = k + 4 := ⟨fuel - 4, by omega⟩
  show gtrGo fetch (k + 3 + 1) 1 (.num 1) [] none [] = _
  rw [gtrGo_step_dict fetch (k + 3) 1 1 [] none [] d1 (.num 3) (by norm_num) h1]
  show gtrGo fetch (k + 2 + 1) 2 (.num 3) d1 (some d1) [1] = _
  rw [gtrGo_step_dict fetch (k + 2) 2 3 d1 (some d1) [1] d2 (.num 3) (by norm_num) h2]
  show gtrGo fetch (k + 1 + 1) 3 (.num 3) (d1 ++ d2) (some d2) [1, 2] = _
  rw [gtrGo_step_dict fetch (k + 1) 3 3 (d1 ++ d2) (some d2) [1, 2] d3 (.num 3)
    (by norm_num) h3]
  show gtrGo fetch (k + 1) 4 (.num 3) ((d1 ++ d2) ++ d3) (some d3) [1, 2, 3] = _
  rw [gtrGo_stop fetch (k + 1) 4 3 ((d1 ++ d2) ++ d3) (some d3) [1, 2, 3] (by norm_num)]

/-- Claim C6, witness: three concrete pages. -/
theorem c6_three_pages_concatenated_witness :
    get_test_results
        (fun p => if p = 1 then .ok ⟨200, some (.obj [("Data", .arr [.num 7]), ("TotalPages", .num 3)])⟩
                  else if p = 2 then .ok ⟨200, some (.obj [("Data", .arr [.num 8]), ("TotalPages", .num 3)])⟩
                  else .ok ⟨200, some (.obj [("Data", .arr [.num 9]), ("TotalPages", .num 3)])⟩) 10 =
      (.ret (.success [.num 7, .num 8, .num 9]), [1, 2, 3]) := by
  exact c6_three_pages_concatenated _ [.num 7] [.num 8] [.num 9] rfl rfl rfl 10 (by norm_num)

/-! ## Claim C7 -/

/-- Claim C7: if the fetch of page `k` fails — transport retries
exhausted, a non-JSON body, or a JSON body that is neither dict nor
list — while all earlier pages were well-formed dict pages keeping the
loop alive, then `get_test_results` reports exactly that page's failure,
requests no page beyond `k` (the transport calls are precisely
`1, …, k`), and returns no partial results: the outcome is never a
success carrying records. -/
theorem c7_page_failure_propagates (fetch : Nat → MAResult) (k fuel : Nat) (mode : PageFail)
    (hwf : mode.wf = true) (hk : 1 ≤ k) (hfuel : k ≤ fuel)
    (hfail : fetch k = mode.fetchResult)
    (hprev : ∀ p, 1 ≤ p → p < k →
      ∃ d tp, fetch p = .ok ⟨200, some (.obj [("Data", .arr d), ("TotalPages", .num tp)])⟩ ∧
        ((p : ℚ) + 1 ≤ tp)) :
    get_test_results fetch fuel = (mode.outcome, (List.range k).map (fun i => 1 + i)) ∧
    (∀ data, mode.outcome ≠ .ret (.success data)) ∧
    (∀ p ∈ (List.range k).map (fun i => 1 + i), p ≤ k) := by
  refine ⟨?_, ?_, ?_⟩
  · have h := gtrGo_fail_at fetch k mode hwf hfail fuel 1 1 [] none []
      hk (by omega) (by norm_num) hprev
    have hk1 : k + 1 - 1 = k := by omega
    rw [hk1] at h
    simpa [get_test_results] using h
  · intro data
    cases mode with
    | transport => simp [PageFail.outcome]
    | badJson => simp [PageFail.outcome]
    | badSchema j => simp [PageFail.outcome]
  · intro p hp
    simp only [List.mem_map, List.mem_range] at hp
    obtain ⟨i, hi, rfl⟩ := hp
    omega

/-- Claim C7, witness: page 2 of a reported 3 fails with exhausted
transport retries; only pages 1 and 2 are requested. -/
theorem c7_page_failure_propagates_witness :
    get_test_results
        (fun p => if p = 1 then .ok ⟨200, some (.obj [("Data", .arr [.num 7]), ("TotalPages", .num 3)])⟩
                  else .retryError) 10 =
      (.exc .retryError, [1, 2]) := by
  have h := (c7_page_failure_propagates
      (fun p => if p = 1 then .ok ⟨200, some (.obj [("Data", .arr [.num 7]), ("TotalPages", .num 3)])⟩
                else .retryError)
      2 10 .transport rfl (by norm_num) (by norm_num) rfl ?_).1
  · exact h
  · intro p h1 h2
    have hp : p = 1 := by omega
    subst hp
    exact ⟨[.num 7], 3, rfl, by norm_num⟩

/-! ## Claim C2 -/

/-- Claim C2, counterexample: for the record type name
`"Total THC (mg/unit) Raw Plant Material & PreRolls"` the display name
produced by the code is `"Total THC (mg/unit)"`, not the canonical
compound name `"THC"` the claim states: `simplify_cannabinoid_name`
strips only boilerplate suffix phrases and the claimed leading-"Total "
removal and ordered compound pattern match do not exist in the code. -/
theorem c2_display_name_cex :
    simplify_cannabinoid_name "Total THC (mg/unit) Raw Plant Material & PreRolls" =
      "Total THC (mg/unit)" ∧
    simplify_cannabinoid_name "Total THC (mg/unit) Raw Plant Material & PreRolls" ≠ "THC" := by
  constructor
  · rfl
  · decide

/-- Claim C2, amended: a record with type name
`"Total THC (mg/unit) Raw Plant Material & PreRolls"` is classified as
potency by the table filter, its unit extracts as `"mg/unit"` from the
first parenthesized group, and its display name reduces (by boilerplate
stripping only) to `"Total THC (mg/unit)"`. -/
theorem c2_potency_unit_display :
    isPotencyRow { TestTypeName := some "Total THC (mg/unit) Raw Plant Material & PreRolls",
                   TestResultLevel := some (.rfloat ⟨125, 1⟩) } = true ∧
    extract_units "Total THC (mg/unit) Raw Plant Material & PreRolls" = "mg/unit" ∧
    simplify_cannabinoid_name "Total THC (mg/unit) Raw Plant Material & PreRolls" =
      "Total THC (mg/unit)" := by
  refine ⟨by decide, rfl, rfl⟩

/-! ## Claim C5 -/

/-- Claim C5, counterexample: with a first record whose date field is
present but unparseable and a second record with a parseable date,
`extract_test_date` returns the sentinel `"N/A"` even though a record
in the sequence has a parseable date (the claim demands the first
parseable date, `"2024-03-10"`). -/
theorem c5_earliest_date_cex :
    extract_test_date
        [{ TestPerformedDate := some "2024-13-01" }, { TestPerformedDate := some "2024-03-10" }] =
      "N/A" ∧
    firstParseableDate
        [{ TestPerformedDate := some "2024-13-01" }, { TestPerformedDate := some "2024-03-10" }] =
      some "2024-03-10" ∧
    extract_test_date
        [{ TestPerformedDate := some "2024-13-01" }, { TestPerformedDate := some "2024-03-10" }] ≠
      "2024-03-10" := by
  refine ⟨by decide, by decide, by decide⟩

/-- Claim C5, amended: `extract_test_date` inspects only the FIRST
record (in input order) whose date field is present and not the literal
`"N/A"`: it returns that record's date when it parses as a calendar
date and the sentinel `"N/A"` when it does not (later records are never
consulted); the sentinel is also returned when no record carries a
present, non-`"N/A"` date field. -/
theorem c5_first_candidate_only :
    (∀ (l₁ l₂ : List TestRecord) (r : TestRecord) (d : String),
        (∀ x ∈ l₁, ∀ dx, x.TestPerformedDate = some dx → dx = "N/A") →
        r.TestPerformedDate = some d → d ≠ "N/A" →
        extract_test_date (l₁ ++ r :: l₂) = (if isValidDate d then d else "N/A")) ∧
    (∀ l : List TestRecord,
        (∀ x ∈ l, ∀ dx, x.TestPerformedDate = some dx → dx = "N/A") →
        extract_test_date l = "N/A") := by
  constructor
  · intro l₁ l₂ r d h hr hd
    induction l₁ with
    | nil => simp [extract_test_date, hr, hd]
    | cons x xs ih =>
        have hx := h x (by simp)
        have ih := ih (fun y hy => h y (by simp [hy]))
        cases hxd : x.TestPerformedDate with
        | none => simpa [extract_test_date, hxd] using ih
        | some dx =>
            have : dx = "N/A" := hx dx hxd
            subst this
            simpa [extract_test_date, hxd] using ih
  · intro l h
    induction l with
    | nil => rfl
    | cons x xs ih =>
        have hx := h x (by simp)
        have ih := ih (fun y hy => h y (by simp [hy]))
        cases hxd : x.TestPerformedDate with
        | none => simpa [extract_test_date, hxd] using ih
        | some dx =>
            have : dx = "N/A" := hx dx hxd
            subst this
            simpa [extract_test_date, hxd] using ih

/-- Claim C5, witness for the amended theorem at a concrete input: one
leading record with no date field, then a candidate record whose date
parses. -/
theorem c5_first_candidate_only_witness :
    extract_test_date
        [({} : TestRecord), { TestPerformedDate := some "2024-03-10" }] = "2024-03-10" := by
  have h := c5_first_candidate_only.1 [({} : TestRecord)] []
    { TestPerformedDate := some "2024-03-10" } "2024-03-10"
    (by intro x hx dx hdx; simp at hx; subst hx; simp at hdx) rfl (by decide)
  simpa using h

/-! ## Sorting lemmas -/

/-- Ten to any power is positive. -/
theorem pow10_pos (e : ℕ) : 0 < pow10 e := by
  unfold pow10
  exact_mod_cast Nat.pos_pow_of_pos e (by norm_num)

/-- The value order on decimals is total. -/
theorem Dec.le_total (a b : Dec) : a.le b = true ∨ b.le a = true := by
  simp only [Dec.le, decide_eq_true_eq]
  exact Int.le_total _ _

/-- The value order on decimals is transitive. -/
theorem Dec.le_trans {a b c : Dec} (h1 : a.le b = true) (h2 : b.le c = true) :
    a.le c = true := by
  simp only [Dec.le, decide_eq_true_eq] at h1 h2 ⊢
  have pa := pow10_pos a.e
  have pb := pow10_pos b.e
  have pc := pow10_pos c.e
  have h1c := mul_le_mul_of_nonneg_right h1 (le_of_lt pc)
  have h2a := mul_le_mul_of_nonneg_right h2 (le_of_lt pa)
  have hchain : a.m * pow10 c.e * pow10 b.e ≤ c.m * pow10 a.e * pow10 b.e := by
    nlinarith
  exact le_of_mul_le_mul_right hchain pb

/-- Membership is preserved by the stable insert. -/
theorem mem_insDesc {α : Type} (k : α → Dec) (x a : α) (l : List α) :
    a ∈ insDesc k x l ↔ a = x ∨ a ∈ l := by
  induction l with
  | nil => simp [insDesc]
  | cons y ys ih =>
      simp only [insDesc]
      split
      · simp [List.mem_cons]
      · simp only [List.mem_cons, ih]
        tauto

/-- Membership is preserved by the stable descending sort. -/
theorem mem_sortDescBy {α : Type} (k : α → Dec) (a : α) (l : List α) :
    a ∈ sortDescBy k l ↔ a ∈ l := by
  induction l with
  | nil => simp [sortDescBy]
  | cons x xs ih =>
      simp only [sortDescBy, mem_insDesc, List.mem_cons, ih]

/-- Inserting into a descending-sorted list keeps it sorted. -/
theorem pairwise_insDesc {α : Type} (k : α → Dec) (x : α) (l : List α)
    (h : l.Pairwise (fun a b => (k b).le (k a) = true)) :
    (insDesc k x l).Pairwise (fun a b => (k b).le (k a) = true) := by
  induction l with
  | nil => simp [insDesc]
  | cons y ys ih =>
      rcases List.pairwise_cons.mp h with ⟨hy, hys⟩
      simp only [insDesc]
      split
      · rename_i hc
        refine List.Pairwise.cons ?_ h
        intro b hb
        rcases List.mem_cons.mp hb with rfl | hbys
        · exact hc
        · exact Dec.le_trans (hy b hbys) hc
      · rename_i hc
        refine List.Pairwise.cons ?_ (ih hys)
        intro b hb
        rcases (mem_insDesc k x b ys).mp hb with rfl | hbys
        · rcases Dec.le_total (k y) (k b) with hyb | hby
          · exact absurd hyb hc
          · exact hby
        · exact hy b hbys

/-- The stable descending sort produces a descending-sorted list. -/
theorem pairwise_sortDescBy {α : Type} (k : α → Dec) (l : List α) :
    (sortDescBy k l).Pairwise (fun a b => (k b).le (k a) = true) := by
  induction l with
  | nil => simp [sortDescBy]
  | cons x xs ih => exact pairwise_insDesc k x _ ih

/-! ## Claim C8 -/

/-- Claim C8, counterexample: two surviving aroma records whose
concentrations parse to `-1.5` and `-0.2`.  Both fail the digits-only
key check of the code, so both sort keys are zero and the stable sort
leaves the input order `[-1.5, -0.2]` — which is NOT descending by
parsed numeric concentration (the claim demands `-0.2` first): the
claim's sort-key description does not match the code on negative
concentrations. -/
theorem c8_negative_concentration_sort_cex :
    populateTerpenesData
        [{ TestTypeName := some "Myrcene", TestResultLevel := some (.rstr "-1.5") },
         { TestTypeName := some "Limonene", TestResultLevel := some (.rstr "-0.2") }] =
      [{ TestTypeName := some "Myrcene", TestResultLevel := some (.rstr "-1.5") },
       { TestTypeName := some "Limonene", TestResultLevel := some (.rstr "-0.2") }] ∧
    pyFloat "-1.5" = some ⟨-15, 1⟩ ∧ Dec.toRat ⟨-15, 1⟩ = -(3 / 2) ∧
    pyFloat "-0.2" = some ⟨-2, 1⟩ ∧ Dec.toRat ⟨-2, 1⟩ = -(1 / 5) ∧
    ¬ (populateTerpenesData
        [{ TestTypeName := some "Myrcene", TestResultLevel := some (.rstr "-1.5") },
         { TestTypeName := some "Limonene", TestResultLevel := some (.rstr "-0.2") }]).Pairwise
      (fun a b => (claimSortKey b).le (claimSortKey a) = true) := by
  refine ⟨by decide, by decide, by norm_num [Dec.toRat, pow10], by decide,
    by norm_num [Dec.toRat, pow10], ?_⟩
  intro hp
  rw [show populateTerpenesData
        [{ TestTypeName := some "Myrcene", TestResultLevel := some (.rstr "-1.5") },
         { TestTypeName := some "Limonene", TestResultLevel := some (.rstr "-0.2") }] =
      [{ TestTypeName := some "Myrcene", TestResultLevel := some (.rstr "-1.5") },
       { TestTypeName := some "Limonene", TestResultLevel := some (.rstr "-0.2") }] from by decide]
    at hp
  have h := (List.pairwise_cons.mp hp).1
    { TestTypeName := some "Limonene", TestResultLevel := some (.rstr "-0.2") } (by simp)
  revert h
  decide

/-- A level that is the literal `"N/A"` or parses to exactly zero
fails the keep test. -/
theorem keepTerpL_false_of_bad (l : RLevel)
    (hbad : l = .rstr "N/A" ∨ concIsZeroB l = true) : keepTerpL l = false := by
  rcases hbad with rfl | hz
  · decide
  · cases l with
    | rstr s =>
        simp only [concIsZeroB] at hz
        cases hpf : pyFloat s with
        | none => rw [hpf] at hz; simp at hz
        | some v =>
            rw [hpf] at hz
            simp only [decide_eq_true_eq] at hz
            simp only [keepTerpL]
            rw [hpf]
            split
            · simp [hz]
            · rfl
    | rint i =>
        simp only [concIsZeroB, decide_eq_true_eq] at hz
        subst hz
        decide
    | rfloat q =>
        simp only [concIsZeroB, decide_eq_true_eq] at hz
        simp [keepTerpL, hz]

/-- Claim C8, amended: for every sequence of test records, the aroma
display list (i) excludes every entry whose concentration is the
literal `"N/A"` or parses to exactly zero, (ii) is sorted in descending
order of the code's key — the parsed value for concentrations whose
string form is a nonnegative plain decimal numeral, zero for all other
entries (so negative concentrations sort as zero rather than by value;
the sort is stable) — and (iii) formats each surviving concentration
that parses numerically as the value rounded to two decimal places with
a `"%"` suffix. -/
theorem c8_aroma_list_properties (results : List TestRecord) :
    (∀ r ∈ results,
        (levelOf r = .rstr "N/A" ∨ concIsZeroB (levelOf r) = true) →
        r ∉ populateTerpenesData results) ∧
    (populateTerpenesData results).Pairwise
      (fun a b => (terpSortKey b).le (terpSortKey a) = true) ∧
    (∀ r ∈ populateTerpenesData results, ∀ (s : String) (q : Dec),
        levelOf r = .rstr s → pyFloat s = some q →
        concDisplay (levelOf r) = fmtRound2 q ++ "%") ∧
    (∀ r ∈ populateTerpenesData results, ∀ q : Dec,
        levelOf r = .rfloat q → concDisplay (levelOf r) = fmtRound2 q ++ "%") := by
  refine ⟨?_, pairwise_sortDescBy _ _, ?_, ?_⟩
  · intro r hr hbad hmem
    have hk : keepTerp r = true := by
      have hmem2 := (mem_sortDescBy terpSortKey r _).mp hmem
      exact (List.mem_filter.mp hmem2).2
    rw [keepTerp, keepTerpL_false_of_bad (levelOf r) hbad] at hk
    exact Bool.false_ne_true hk
  · intro r hmem s q hs hq
    have hk : keepTerp r = true := by
      have hmem2 := (mem_sortDescBy terpSortKey r _).mp hmem
      exact (List.mem_filter.mp hmem2).2
    rw [keepTerp, hs] at hk
    simp only [keepTerpL] at hk
    have hna : pyLower s ≠ "n/a" := by
      intro hcon
      rw [if_neg (not_not_intro hcon)] at hk
      exact Bool.false_ne_true hk
    rw [hs]
    simp only [concDisplay]
    rw [if_pos hna, hq]
  · intro r hmem q hs
    rw [hs]
    simp only [concDisplay]

/-- Claim C8, witness for the amended theorem: a concrete zero-valued
record is excluded and a concrete `"3.14159"` record is displayed as
`"3.14%"`. -/
theorem c8_aroma_list_properties_witness :
    ({ TestTypeName := some "Limonene", TestResultLevel := some (.rstr "0") } : TestRecord) ∉
      populateTerpenesData
        [{ TestTypeName := some "Myrcene", TestResultLevel := some (.rstr "3.14159") },
         { TestTypeName := some "Limonene", TestResultLevel := some (.rstr "0") }] ∧
    concDisplay (levelOf
        { TestTypeName := some "Myrcene", TestResultLevel := some (.rstr "3.14159") }) =
      "3.14%" := by
  constructor
  · exact (c8_aroma_list_properties
        [{ TestTypeName := some "Myrcene", TestResultLevel := some (.rstr "3.14159") },
         { TestTypeName := some "Limonene", TestResultLevel := some (.rstr "0") }]).1
      { TestTypeName := some "Limonene", TestResultLevel := some (.rstr "0") }
      (by decide) (Or.inr (by decide))
  · have h := (c8_aroma_list_properties
        [{ TestTypeName := some "Myrcene", TestResultLevel := some (.rstr "3.14159") },
         { TestTypeName := some "Limonene", TestResultLevel := some (.rstr "0") }]).2.2.1
      { TestTypeName := some "Myrcene", TestResultLevel := some (.rstr "3.14159") }
      (by decide) "3.14159" ⟨314159, 5⟩ rfl (by decide)
    rw [h]
    decide

/-! ## Claim C9 -/

/-- A key not equal to the written one reads through a `dictSet`. -/
theorem updateCVLevel_ne (tt units : String) (f : String → String) (l : RLevel) (c : String)
    (hc : c ≠ tt) : updateCVLevel tt units f l c = f c := by
  have hset : ∀ val, dictSet f tt val c = f c := fun val => if_neg hc
  cases l with
  | rstr s =>
      simp only [updateCVLevel]
      split
      · cases hpf : pyFloat s with
        | some v =>
            simp only [hpf]
            split
            · exact hset _
            · exact hset _
        | none =>
            simp only [hpf]
            exact hset _
      · rfl
  | rint i =>
      simp only [updateCVLevel]
      split
      · exact hset _
      · exact hset _
  | rfloat q =>
      simp only [updateCVLevel]
      split
      · exact hset _
      · exact hset _

/-- The update step leaves an entry at "0.0" when either the record's
type name differs from the key, or its level is numerically
non-positive (and in the remaining untouched branches). -/
theorem updateCV_preserves_default (f : String → String) (r : TestRecord) (c : String)
    (hacc : f c = "0.0")
    (h : typeNameOf r = c → nonPosNumeric (levelOf r) = true) :
    updateCV f r c = "0.0" := by
  unfold updateCV
  by_cases htt : typeNameOf r ∈ INDIVIDUAL_CANNABINOIDS
  · rw [if_pos htt]
    by_cases hc : c = typeNameOf r
    · have hnp := h hc.symm
      cases hlv : levelOf r with
      | rstr s =>
          rw [hlv] at hnp
          simp only [nonPosNumeric] at hnp
          cases hpf : pyFloat s with
          | none => rw [hpf] at hnp; simp at hnp
          | some v =>
              rw [hpf] at hnp
              simp only [decide_eq_true_eq] at hnp
              simp only [updateCVLevel, hpf]
              by_cases hna : pyLower s ≠ "n/a"
              · rw [if_pos hna, if_neg (not_lt.mpr hnp)]
                exact if_pos hc
              · rw [if_neg hna]
                exact hacc
      | rint i =>
          rw [hlv] at hnp
          simp only [nonPosNumeric, decide_eq_true_eq] at hnp
          simp only [updateCVLevel]
          rw [if_neg (not_lt.mpr hnp)]
          exact if_pos hc
      | rfloat q =>
          rw [hlv] at hnp
          simp only [nonPosNumeric, decide_eq_true_eq] at hnp
          simp only [updateCVLevel]
          rw [if_neg (not_lt.mpr hnp)]
          exact if_pos hc
    · rw [updateCVLevel_ne _ _ _ _ _ hc]
      exact hacc
  · rw [if_neg htt]
    exact hacc

/-- The extraction loop ends at "0.0" for a compound when every record
carrying exactly its name has a numerically non-positive level. -/
theorem extractCV_default (results : List TestRecord) (c : String)
    (h : ∀ r ∈ results, typeNameOf r = c → nonPosNumeric (levelOf r) = true) :
    extract_cannabinoid_values results c = "0.0" := by
  unfold extract_cannabinoid_values
  suffices H : ∀ (l : List TestRecord) (f : String → String),
      (∀ r ∈ l, typeNameOf r = c → nonPosNumeric (levelOf r) = true) →
      f c = "0.0" → List.foldl updateCV f l c = "0.0" by
    exact H results (fun _ => "0.0") h rfl
  intro l
  induction l with
  | nil =>
      intro f _ hf
      simpa using hf
  | cons r rs ih =>
      intro f hl hf
      simp only [List.foldl_cons]
      exact ih (updateCV f r) (fun x hx => hl x (List.mem_cons_of_mem r hx))
        (updateCV_preserves_default f r c hf (hl r (List.mem_cons_self r rs)))

/-- Claim C9: the exported potency mapping carries exactly the eight
recognized compound keys, in order, and a compound whose records (if
any) all have numerically non-positive result levels — in particular a
compound absent from the records — is exported with the default value
"0.0". -/
theorem c9_mapping_keys_and_defaults (results : List TestRecord) :
    (exportCannabinoids results).map Prod.fst = INDIVIDUAL_CANNABINOIDS ∧
    ∀ c ∈ INDIVIDUAL_CANNABINOIDS,
      (∀ r ∈ results, typeNameOf r = c → nonPosNumeric (levelOf r) = true) →
      (c, "0.0") ∈ exportCannabinoids results := by
  constructor
  · simp only [exportCannabinoids, List.map_map]
    have hcomp : (Prod.fst ∘ fun c => (c, extract_cannabinoid_values results c)) = id := rfl
    rw [hcomp, List.map_id]
  · intro c hc h
    have hv := extractCV_default results c h
    simp only [exportCannabinoids, List.mem_map]
    exact ⟨c, hc, by rw [hv]⟩

/-- Claim C9, witness: `CBD` has one record with a negative level and
`THCA` a positive one; `CBD` is exported as "0.0" (and so is the
absent `CBN`). -/
theorem c9_mapping_keys_and_defaults_witness :
    ("CBD", "0.0") ∈ exportCannabinoids
      [{ TestTypeName := some "CBD", TestResultLevel := some (.rfloat ⟨-15, 1⟩) },
       { TestTypeName := some "THCA", TestResultLevel := some (.rstr "5.0") }] ∧
    ("CBN", "0.0") ∈ exportCannabinoids
      [{ TestTypeName := some "CBD", TestResultLevel := some (.rfloat ⟨-15, 1⟩) },
       { TestTypeName := some "THCA", TestResultLevel := some (.rstr "5.0") }] := by
  constructor
  · exact (c9_mapping_keys_and_defaults _).2 "CBD" (by decide) (by decide)
  · exact (c9_mapping_keys_and_defaults _).2 "CBN" (by decide) (by decide)

/-! ## Claim C10 -/

/-- Claim C10: the exported mapping is gated on exact equality of the
type name with one of the eight individual cannabinoid names — any
other record leaves the accumulated mapping literally unchanged —
while the aggregated type
`"Total THC (mg/unit) Raw Plant Material & PreRolls"` still passes the
potency-table substring filter yet leaves every exported value at its
default "0.0". -/
theorem c10_exact_name_gate :
    (∀ (f : String → String) (r : TestRecord),
        typeNameOf r ∉ INDIVIDUAL_CANNABINOIDS → updateCV f r = f) ∧
    isPotencyRow { TestTypeName := some "Total THC (mg/unit) Raw Plant Material & PreRolls",
                   TestResultLevel := some (.rstr "12.5") } = true ∧
    (∀ c ∈ INDIVIDUAL_CANNABINOIDS,
        extract_cannabinoid_values
          [{ TestTypeName := some "Total THC (mg/unit) Raw Plant Material & PreRolls",
             TestResultLevel := some (.rstr "12.5") }] c = "0.0") := by
  refine ⟨?_, by decide, by decide⟩
  intro f r h
  unfold updateCV
  rw [if_neg h]

/-- Claim C10, witness: the aggregated record applied to the default
mapping changes nothing. -/
theorem c10_exact_name_gate_witness :
    updateCV (fun _ => "0.0")
      { TestTypeName := some "Total THC (mg/unit) Raw Plant Material & PreRolls",
        TestResultLevel := some (.rstr "12.5") } = (fun _ => "0.0") :=
  c10_exact_name_gate.1 (fun _ => "0.0")
    { TestTypeName := some "Total THC (mg/unit) Raw Plant Material & PreRolls",
      TestResultLevel := some (.rstr "12.5") } (by decide)

end Barkeep
